import Mathlib

/-!
Verification of the mojo-zlib automation scripts (`scripts/util.py` and
`scripts/test.py`) against their natural-language specification.

The Python code is shallowly embedded: pure string manipulation becomes Lean
functions over `String` / `List Char`; the filesystem and subprocess effects
are made explicit as parameters (outcome oracles) and results (event traces
and final states).  Fallible code (Python code that can raise `IndexError`)
returns `Option`.

The file is organised as definitions first, then theorems.
-/

namespace MojoZlib

/-! ## Definitions -/

/-! ### `format_dependency` (scripts/util.py, lines 29-41)

Python:
```
start = 0
operator = "=="
if version[0] in {"<", ">"}:
    if version[1] != "=":
        operator = version[0]; start = 1
    else:
        operator = version[:2]; start = 2
return f"{name} {operator} {version[start:]}"
```
`version[0]` / `version[1]` raise `IndexError` on too-short input, so the
embedding returns `Option String`, with `none` exactly where Python raises.
-/

def format_dependency (name : String) (version : String) : Option String :=
  match version.data with
  | [] => none
  | c0 :: cs =>
    if c0 = '<' ∨ c0 = '>' then
      match cs with
      | [] => none
      | c1 :: _ =>
        if c1 ≠ '=' then
          some (name ++ " " ++ String.mk [c0] ++ " " ++ String.mk cs)
        else
          some (name ++ " " ++ String.mk [c0, c1] ++ " " ++ String.mk (cs.drop 1))
    else
      some (name ++ " " ++ "==" ++ " " ++ version)

/-- The operator the claim's detection rule assigns to a specifier string
(written from the claim's words, to be compared with `format_dependency`). -/
def claimOperator (s : String) : String :=
  match s.data with
  | [] => "=="
  | [c0] => if c0 = '<' ∨ c0 = '>' then String.mk [c0] else "=="
  | c0 :: c1 :: _ =>
    if c0 = '<' ∨ c0 = '>' then
      if c1 = '=' then String.mk [c0, c1] else String.mk [c0]
    else "=="

/-- The version remainder the claim assigns: `s` with the detected operator
prefix stripped (the `==` case strips nothing). -/
def claimVersion (s : String) : String :=
  if claimOperator s = "==" then s
  else String.mk (s.data.drop (claimOperator s).data.length)

/-! ### Test runner (scripts/test.py)

`find_mojo_test_files` walks the `tests` directory with `os.walk` and collects
`os.path.join(root, file)` for every file name ending in `.mojo`, then sorts.
The `os.walk` enumeration is modelled as the list of `(root, filename)` pairs
it yields (its order is OS-dependent, hence an arbitrary parameter); `sorted`
is modelled by `List.insertionSort (· ≤ ·)`, which produces the unique sorted
permutation just as Python's `sorted` does on a totally ordered list. -/

def find_mojo_test_files (walk : List (String × String)) : List String :=
  List.insertionSort (· ≤ ·)
    ((walk.filter (fun e => e.2.endsWith ".mojo")).map (fun e => e.1 ++ "/" ++ e.2))

/-- A completed `subprocess.run` invocation (`capture_output=True, text=True`). -/
structure RunResult where
  returncode : Int
  stdout : String
  stderr : String

/-- Outcome of invoking the external test command on one file: either the
subprocess completes (with some exit code), or the invocation raises an
exception whose message is `msg` (e.g. the external tool is missing). -/
inductive SubprocOutcome where
  | completed (r : RunResult)
  | raised (msg : String)

/-- The 4-tuple returned by `run_test`. -/
structure TestResult where
  success : Bool
  duration : ℚ
  stdout : String
  stderr : String

/-- `run_test` (scripts/test.py, lines 20-33).  Wall-clock duration is an
input parameter; the `try/except` is modelled by matching on the invocation
outcome, so the function is total (it never raises). -/
def run_test (outcome : SubprocOutcome) (duration : ℚ) : TestResult :=
  match outcome with
  | .completed r =>
    { success := r.returncode == 0, duration := duration
      stdout := r.stdout, stderr := r.stderr }
  | .raised msg =>
    { success := false, duration := duration, stdout := "", stderr := msg }

/-- What one run of `main` (scripts/test.py, lines 36-79) computes: the exit
status, the summary counters, and the average-per-file value (`none` when the
early `return` for zero discovered files skips the whole summary, so the
division `total_duration/len(test_files)` is never evaluated). -/
structure MainOutcome where
  exitCode : Nat
  totalFiles : Nat
  passed : Nat
  failed : Nat
  avgPerFile : Option ℚ

/-- `main` (scripts/test.py): the discovered file list, the per-file
subprocess outcomes and durations, and the total wall-clock duration are
parameters. -/
def mainRun (files : List String) (outcome : String → SubprocOutcome)
    (duration : String → ℚ) (totalDuration : ℚ) : MainOutcome :=
  if files.isEmpty then
    { exitCode := 0, totalFiles := 0, passed := 0, failed := 0, avgPerFile := none }
  else
    let results := files.map (fun f => run_test (outcome f) (duration f))
    let passed := (results.filter (fun r => r.success)).length
    let failed := (results.filter (fun r => !r.success)).length
    { exitCode := if 0 < failed then 1 else 0
      totalFiles := files.length
      passed := passed
      failed := failed
      avgPerFile := some (totalDuration / (files.length : ℚ)) }

/-! ### Publisher (scripts/util.py, `publish`, lines 94-107)

```
for file in glob.glob(f'{CONDA_BUILD_PATH}/*.conda'):
    try:
        subprocess.run(["pixi", "upload", ..., file], check=True)
    except subprocess.CalledProcessError:
        pass
    os.remove(file)
```
The glob result is a parameter (`files`); each file's upload invocation
outcome is a parameter: with `check=True` a completed subprocess whose exit
code is non-zero raises `subprocess.CalledProcessError` (caught by the
`except`), while any other exception from the invocation (e.g. the upload
tool's executable missing) is not caught.  The embedding returns the ordered
trace of upload attempts and file deletions, plus the uncaught exception's
message if one escapes the loop. -/

/-- Outcome of one `pixi upload` subprocess invocation. -/
inductive UploadOutcome where
  | exited (code : Int)
  | raised (msg : String)
deriving DecidableEq

/-- Observable side effects of `publish`. -/
inductive PubEvent where
  | uploadAttempt (file : String)
  | deleteFile (file : String)
deriving DecidableEq

def publish : List String → (String → UploadOutcome) → List PubEvent × Option String
  | [], _ => ([], none)
  | f :: rest, env =>
    match env f with
    | .exited _ =>
      let done := publish rest env
      (PubEvent.uploadAttempt f :: PubEvent.deleteFile f :: done.1, done.2)
    | .raised msg => ([PubEvent.uploadAttempt f], some msg)

/-! ### Recipe generator (scripts/util.py, `generate_recipe`, lines 44-91)

`PROJECT_CONFIG` is the parsed `pixi.toml`; the fields `generate_recipe`
reads become the `ProjectConfig` structure, with the dependency table as a
`(name, specifier)` list in mapping iteration order.  `Path("README.md")
.read_text()` is the `readme` parameter.  Since `format_dependency` can raise
(`IndexError`) on degenerate specifiers, recipe generation returns `Option`:
`none` exactly when the Python function would raise in the requirements
loop. -/

structure ProjectConfig where
  packageName : String
  packageVersion : String
  dependencies : List (String × String)
  homepage : String
  license : String
  licenseFile : String
  description : String
  repository : String
deriving DecidableEq

/-- The recipe document `generate_recipe` builds and serializes. -/
structure Recipe where
  contextVersion : String
  packageName : String
  packageVersion : String
  sourcePaths : List String
  buildScript : List String
  requirementsRun : List String
  aboutHomepage : String
  aboutLicense : String
  aboutLicenseFile : String
  aboutSummary : String
  aboutDescription : String
  aboutRepository : String
deriving DecidableEq

def generate_recipe (cfg : ProjectConfig) (readme : String) : Option Recipe :=
  let package_name := "zlib"
  (cfg.dependencies.mapM (fun d => format_dependency d.1 d.2)).map (fun reqs =>
    { contextVersion := "13.4.2"
      packageName := cfg.packageName
      packageVersion := cfg.packageVersion
      sourcePaths := ["src", cfg.licenseFile]
      buildScript := ["mkdir -p ${PREFIX}/lib/mojo",
        "pixi run mojo package " ++ package_name
          ++ " -o ${PREFIX}/lib/mojo/" ++ package_name ++ ".mojopkg"]
      requirementsRun := reqs
      aboutHomepage := cfg.homepage
      aboutLicense := cfg.license
      aboutLicenseFile := cfg.licenseFile
      aboutSummary := cfg.description
      aboutDescription := readme
      aboutRepository := cfg.repository })

/-- A sample configuration whose package name is `mojo-zlib` (≠ `zlib`). -/
def sampleConfig : ProjectConfig :=
  { packageName := "mojo-zlib", packageVersion := "0.1.0"
    dependencies := [("libc", ">=2.0")]
    homepage := "https://example.com", license := "MIT"
    licenseFile := "LICENSE", description := "zlib bindings"
    repository := "https://example.com/repo" }

/-- The recipe `generate_recipe` produces from `sampleConfig`. -/
def sampleRecipe : Recipe :=
  { contextVersion := "13.4.2"
    packageName := "mojo-zlib", packageVersion := "0.1.0"
    sourcePaths := ["src", "LICENSE"]
    buildScript := ["mkdir -p ${PREFIX}/lib/mojo",
      "pixi run mojo package zlib -o ${PREFIX}/lib/mojo/zlib.mojopkg"]
    requirementsRun := ["libc >= 2.0"]
    aboutHomepage := "https://example.com", aboutLicense := "MIT"
    aboutLicenseFile := "LICENSE", aboutSummary := "zlib bindings"
    aboutDescription := "readme text", aboutRepository := "https://example.com/repo" }

/-! ### Build orchestrator (scripts/util.py, `build_conda_package`, lines 128-139)

```
if not RECIPE_PATH.exists():
    generate_recipe()
subprocess.run(["pixi", "build", "-o", CONDA_BUILD_PATH], check=True)
os.remove("recipe.yaml")
```
State passed in: the on-disk `recipe.yaml` content (`none` = absent) and the
build tool's exit code; returned: the final `recipe.yaml` state, the ordered
event trace, and the propagated fatal error if any (`check=True` raises on a
non-zero exit, aborting before the `os.remove`). -/

inductive BuildEvent where
  | generated (r : Recipe)
  | buildRun (r : Recipe)
  | removedRecipe
deriving DecidableEq

inductive BuildError where
  | generateFailed
  | buildFailed (code : Int)
deriving DecidableEq

structure BuildResult where
  recipeFile : Option Recipe
  events : List BuildEvent
  error : Option BuildError
deriving DecidableEq

/-- The build-and-cleanup tail of `build_conda_package`: `pixi build` over the
on-disk recipe `r` (fatal on non-zero exit — the cleanup `os.remove` is then
never reached), then deletion of `recipe.yaml`. -/
def runBuildStep (r : Recipe) (evs : List BuildEvent) (buildExit : Int) : BuildResult :=
  if buildExit = 0 then
    { recipeFile := none, events := evs ++ [.buildRun r, .removedRecipe], error := none }
  else
    { recipeFile := some r, events := evs ++ [.buildRun r]
      error := some (.buildFailed buildExit) }

def build_conda_package (cfg : ProjectConfig) (readme : String)
    (recipeFile : Option Recipe) (buildExit : Int) : BuildResult :=
  match recipeFile with
  | none =>
    match generate_recipe cfg readme with
    | none => { recipeFile := none, events := [], error := some .generateFailed }
    | some r => runBuildStep r [.generated r] buildExit
  | some r => runBuildStep r [] buildExit

/-! ### Staging directory manager (scripts/util.py, lines 110-125)

The filesystem state relevant to `prepare_temp_directory` is the staging
directory `$HOME/tmp`: absent (`none`), or present with its list of entry
names. `shutil.rmtree` removes it with its contents; `TEMP_DIR.mkdir()`
recreates it empty (it always succeeds here because the directory was just
removed); the external `mojo package` call drops exactly one artifact
`<package>.mojopkg` into it when it exits 0 (`check=True` propagates a
non-zero exit). -/

structure FS where
  tempDir : Option (List String)
deriving DecidableEq

def remove_temp_directory (fs : FS) : FS :=
  if fs.tempDir.isSome then { tempDir := none } else fs

def prepare_temp_directory (fs : FS) (pkg : String) (mojoExit : Int) :
    FS × Option Int :=
  let fs1 := remove_temp_directory fs
  let fs2 : FS := { fs1 with tempDir := some [] }
  if mojoExit = 0 then
    ({ fs2 with tempDir := some [pkg ++ ".mojopkg"] }, none)
  else
    (fs2, some mojoExit)

/-! ## Theorems -/

/-- The detected operator is always one of the five comparison operators. -/
theorem claimOperator_mem (s : String) :
    claimOperator s ∈ (["==", "<", ">", "<=", ">="] : List String) := by
  obtain ⟨l⟩ := s
  match l with
  | [] => exact .head _
  | [c0] =>
    by_cases h : c0 = '<' ∨ c0 = '>'
    · rcases h with h | h <;> subst h <;> decide
    · show (if c0 = '<' ∨ c0 = '>' then String.mk [c0] else "==")
        ∈ (["==", "<", ">", "<=", ">="] : List String)
      rw [if_neg h]; decide
  | c0 :: c1 :: tail =>
    by_cases h : c0 = '<' ∨ c0 = '>'
    · by_cases he : c1 = '='
      · subst he
        rcases h with h | h <;> subst h
        · exact List.Mem.tail _ (List.Mem.tail _ (List.Mem.tail _ (List.Mem.head _)))
        · exact List.Mem.tail _ (List.Mem.tail _ (List.Mem.tail _ (List.Mem.tail _
            (List.Mem.head _))))
      · rcases h with h | h <;> subst h <;>
        · show (if c1 = '=' then String.mk _ else String.mk _)
            ∈ (["==", "<", ">", "<=", ">="] : List String)
          rw [if_neg he]
          decide
    · show (if c0 = '<' ∨ c0 = '>' then _ else "==")
        ∈ (["==", "<", ">", "<=", ">="] : List String)
      rw [if_neg h]; decide

theorem claimOperator_default (c0 : Char) (cs : List Char)
    (hc : ¬(c0 = '<' ∨ c0 = '>')) :
    claimOperator (String.mk (c0 :: cs)) = "==" := by
  match cs with
  | [] =>
    show (if c0 = '<' ∨ c0 = '>' then String.mk [c0] else "==") = "=="
    rw [if_neg hc]
  | c1 :: tail =>
    show (if c0 = '<' ∨ c0 = '>' then
        if c1 = '=' then String.mk [c0, c1] else String.mk [c0]
      else "==") = "=="
    rw [if_neg hc]

theorem claimOperator_single (c0 c1 : Char) (rest : List Char)
    (hc : c0 = '<' ∨ c0 = '>') (he : ¬c1 = '=') :
    claimOperator (String.mk (c0 :: c1 :: rest)) = String.mk [c0] := by
  show (if c0 = '<' ∨ c0 = '>' then
      if c1 = '=' then String.mk [c0, c1] else String.mk [c0]
    else "==") = String.mk [c0]
  rw [if_pos hc, if_neg he]

theorem claimVersion_single (c0 c1 : Char) (rest : List Char)
    (hc : c0 = '<' ∨ c0 = '>') (he : ¬c1 = '=') :
    claimVersion (String.mk (c0 :: c1 :: rest)) = String.mk (c1 :: rest) := by
  have hne : claimOperator (String.mk (c0 :: c1 :: rest)) ≠ "==" := by
    rw [claimOperator_single c0 c1 rest hc he]
    rcases hc with h | h <;> subst h <;> decide
  unfold claimVersion
  rw [if_neg hne, claimOperator_single c0 c1 rest hc he]
  rfl

/-- C1: for a specifier `s` of length ≥ 1 (and length ≥ 2 whenever it starts
with `<` or `>`), `format_dependency n s` returns `"n <op> v"` with the
operator and version determined by the claim's detection rule, the operator is
one of `==, <, >, <=, >=`, and the version is `s` with the detected operator
prefix stripped (the default `==` case strips nothing). -/
theorem format_dependency_spec (n s : String)
    (h1 : 1 ≤ s.length)
    (h2 : s.data.head? = some '<' ∨ s.data.head? = some '>' → 2 ≤ s.length) :
    format_dependency n s = some (n ++ " " ++ claimOperator s ++ " " ++ claimVersion s)
    ∧ claimOperator s ∈ (["==", "<", ">", "<=", ">="] : List String)
    ∧ (if claimOperator s = "==" then claimVersion s = s
       else s = claimOperator s ++ claimVersion s) := by
  obtain ⟨l⟩ := s
  match l with
  | [] => simp [String.length] at h1
  | c0 :: cs =>
    by_cases hc : c0 = '<' ∨ c0 = '>'
    · match cs with
      | [] =>
        exfalso
        have := h2 (by rcases hc with h | h <;> simp [h])
        simp [String.length] at this
      | c1 :: rest =>
        by_cases he : c1 = '='
        · subst he
          refine ⟨?_, claimOperator_mem _, ?_⟩ <;>
            rcases hc with h | h <;> subst h <;> rfl
        · have hop := claimOperator_single c0 c1 rest hc he
          have hver := claimVersion_single c0 c1 rest hc he
          have hne : claimOperator (String.mk (c0 :: c1 :: rest)) ≠ "==" := by
            rw [hop]
            rcases hc with h | h <;> subst h <;> decide
          refine ⟨?_, claimOperator_mem _, ?_⟩
          · rcases hc with h | h <;> subst h
            · show (if c1 ≠ '=' then
                  some (n ++ " " ++ String.mk ['<'] ++ " " ++ String.mk (c1 :: rest))
                else some (n ++ " " ++ String.mk ['<', c1]
                    ++ " " ++ String.mk ((c1 :: rest).drop 1)))
                = some (n ++ " " ++ claimOperator (String.mk ('<' :: c1 :: rest))
                    ++ " " ++ claimVersion (String.mk ('<' :: c1 :: rest)))
              rw [if_pos he, hop, hver]
            · show (if c1 ≠ '=' then
                  some (n ++ " " ++ String.mk ['>'] ++ " " ++ String.mk (c1 :: rest))
                else some (n ++ " " ++ String.mk ['>', c1]
                    ++ " " ++ String.mk ((c1 :: rest).drop 1)))
                = some (n ++ " " ++ claimOperator (String.mk ('>' :: c1 :: rest))
                    ++ " " ++ claimVersion (String.mk ('>' :: c1 :: rest)))
              rw [if_pos he, hop, hver]
          · rw [if_neg hne, hop, hver]
            apply String.ext
            simp [String.data_append]
    · have hop := claimOperator_default c0 cs hc
      refine ⟨?_, claimOperator_mem _, ?_⟩
      · show (if c0 = '<' ∨ c0 = '>' then _
            else some (n ++ " " ++ "==" ++ " " ++ String.mk (c0 :: cs)))
          = some (n ++ " " ++ claimOperator (String.mk (c0 :: cs))
              ++ " " ++ claimVersion (String.mk (c0 :: cs)))
        have hver : claimVersion (String.mk (c0 :: cs)) = String.mk (c0 :: cs) := by
          unfold claimVersion
          rw [if_pos hop]
        rw [if_neg hc, hop, hver]
      · have hver : claimVersion (String.mk (c0 :: cs)) = String.mk (c0 :: cs) := by
          unfold claimVersion
          rw [if_pos hop]
        rw [if_pos hop, hver]

/-- Witness for C1 at `n = "zlib"`, `s = ">=1.2.3"`. -/
theorem format_dependency_spec_witness :
    format_dependency "zlib" ">=1.2.3"
      = some ("zlib" ++ " " ++ claimOperator ">=1.2.3" ++ " " ++ claimVersion ">=1.2.3")
    ∧ claimOperator ">=1.2.3" ∈ (["==", "<", ">", "<=", ">="] : List String)
    ∧ (if claimOperator ">=1.2.3" = "==" then claimVersion ">=1.2.3" = ">=1.2.3"
       else ">=1.2.3" = claimOperator ">=1.2.3" ++ claimVersion ">=1.2.3") :=
  format_dependency_spec "zlib" ">=1.2.3" (by decide) (by decide)

/-- C2: the test-runner exit status is 0 iff the failed count is 0 (including
the zero-discovered-files case), and 1 iff the failed count is positive. -/
theorem main_exit_code_spec (files : List String) (outcome : String → SubprocOutcome)
    (duration : String → ℚ) (totalDuration : ℚ) :
    ((mainRun files outcome duration totalDuration).exitCode = 0
      ↔ (mainRun files outcome duration totalDuration).failed = 0)
    ∧ ((mainRun files outcome duration totalDuration).exitCode = 1
      ↔ 0 < (mainRun files outcome duration totalDuration).failed) := by
  cases files with
  | nil => constructor <;> simp [mainRun]
  | cons f fs =>
    simp only [mainRun, List.isEmpty_cons, Bool.false_eq_true, if_false]
    rcases Nat.eq_zero_or_pos
      ((((f :: fs).map (fun g => run_test (outcome g) (duration g))).filter
        (fun r => !r.success)).length) with h | h <;>
      simp [h, Nat.pos_iff_ne_zero] at *

/-- C7: if invoking the external test command raises, `run_test` returns a
failure result with empty captured stdout and the exception message as the
error output (and, being a total function, never raises itself); if the
command completes, the file passes iff its exit code is zero. -/
theorem run_test_spec (r : RunResult) (msg : String) (d d' : ℚ) :
    run_test (.raised msg) d
      = { success := false, duration := d, stdout := "", stderr := msg }
    ∧ ((run_test (.completed r) d').success = true ↔ r.returncode = 0) := by
  refine ⟨rfl, ?_⟩
  simp [run_test]

/-- C8: with zero discovered files `main` returns early with a notice: no
summary is computed (`avgPerFile = none`, so the division by the file count is
never evaluated) and the exit status is 0; the division is only reached with
at least one discovered file, where the divisor is the positive file count. -/
theorem main_zero_files_spec (outcome : String → SubprocOutcome)
    (duration : String → ℚ) (totalDuration : ℚ) (f : String) (fs : List String) :
    (mainRun [] outcome duration totalDuration).avgPerFile = none
    ∧ (mainRun [] outcome duration totalDuration).exitCode = 0
    ∧ (mainRun (f :: fs) outcome duration totalDuration).avgPerFile
        = some (totalDuration / ((f :: fs).length : ℚ))
    ∧ 0 < (f :: fs).length := by
  refine ⟨rfl, rfl, ?_, Nat.succ_pos _⟩
  simp [mainRun]

/-- C6: discovery returns exactly the walked files whose names end in `.mojo`
(joined with their root), in sorted order, and is deterministic: any two walk
enumerations of the same unchanged directory tree (i.e. permutations of each
other) produce identical ordered lists. -/
theorem find_mojo_test_files_spec (walk walk' : List (String × String))
    (h : walk.Perm walk') :
    (find_mojo_test_files walk).Perm
      ((walk.filter (fun e => e.2.endsWith ".mojo")).map (fun e => e.1 ++ "/" ++ e.2))
    ∧ List.Sorted (· ≤ ·) (find_mojo_test_files walk)
    ∧ find_mojo_test_files walk = find_mojo_test_files walk' := by
  refine ⟨List.perm_insertionSort _ _, List.sorted_insertionSort _ _, ?_⟩
  apply List.eq_of_perm_of_sorted ?_ (List.sorted_insertionSort _ _)
    (List.sorted_insertionSort _ _)
  exact (List.perm_insertionSort _ _).trans
    (((h.filter _).map _).trans (List.perm_insertionSort _ _).symm)

/-- Witness for C6 on a concrete three-entry walk and a permutation of it. -/
theorem find_mojo_test_files_spec_witness :
    (find_mojo_test_files [("tests", "b.mojo"), ("tests", "a.mojo"), ("tests", "x.txt")]).Perm
      (([("tests", "b.mojo"), ("tests", "a.mojo"), ("tests", "x.txt")].filter
          (fun e => e.2.endsWith ".mojo")).map (fun e => e.1 ++ "/" ++ e.2))
    ∧ List.Sorted (· ≤ ·)
        (find_mojo_test_files [("tests", "b.mojo"), ("tests", "a.mojo"), ("tests", "x.txt")])
    ∧ find_mojo_test_files [("tests", "b.mojo"), ("tests", "a.mojo"), ("tests", "x.txt")]
        = find_mojo_test_files [("tests", "x.txt"), ("tests", "a.mojo"), ("tests", "b.mojo")] :=
  find_mojo_test_files_spec
    [("tests", "b.mojo"), ("tests", "a.mojo"), ("tests", "x.txt")]
    [("tests", "x.txt"), ("tests", "a.mojo"), ("tests", "b.mojo")]
    (by decide)

theorem publish_exited_eq (files : List String) (codes : String → Int) :
    publish files (fun f => .exited (codes f))
      = (files.flatMap (fun f => [PubEvent.uploadAttempt f, PubEvent.deleteFile f]), none) := by
  induction files with
  | nil => rfl
  | cons f fs ih => simp [publish, ih]

theorem countP_upload_flatMap (files : List String) :
    ((files.flatMap (fun f => [PubEvent.uploadAttempt f, PubEvent.deleteFile f])).countP
      (fun e => match e with | .uploadAttempt _ => true | _ => false)) = files.length := by
  induction files with
  | nil => rfl
  | cons f fs ih => simp [List.countP_cons, ih]

theorem countP_delete_flatMap (files : List String) :
    ((files.flatMap (fun f => [PubEvent.uploadAttempt f, PubEvent.deleteFile f])).countP
      (fun e => match e with | .deleteFile _ => true | _ => false)) = files.length := by
  induction files with
  | nil => rfl
  | cons f fs ih => simp [List.countP_cons, ih]

/-- C3: when every upload invocation completes (with any exit codes, even all
failing), `publish` produces exactly one upload attempt and one deletion per
artifact file, interleaved in enumeration order, swallows every non-zero exit,
and lets no exception escape. -/
theorem publish_all_attempted_spec (files : List String) (codes : String → Int) :
    publish files (fun f => .exited (codes f))
      = (files.flatMap (fun f => [PubEvent.uploadAttempt f, PubEvent.deleteFile f]), none)
    ∧ ((publish files (fun f => .exited (codes f))).1.countP
        (fun e => match e with | .uploadAttempt _ => true | _ => false)) = files.length
    ∧ ((publish files (fun f => .exited (codes f))).1.countP
        (fun e => match e with | .deleteFile _ => true | _ => false)) = files.length := by
  refine ⟨publish_exited_eq files codes, ?_, ?_⟩ <;>
    rw [publish_exited_eq files codes]
  · exact countP_upload_flatMap files
  · exact countP_delete_flatMap files

theorem publish_raised_eq (pre post : List String) (f : String)
    (env : String → UploadOutcome) (msg : String)
    (hpre : ∀ g ∈ pre, ∃ c, env g = .exited c)
    (hf : env f = .raised msg) :
    publish (pre ++ f :: post) env
      = (pre.flatMap (fun g => [PubEvent.uploadAttempt g, PubEvent.deleteFile g])
          ++ [PubEvent.uploadAttempt f], some msg) := by
  induction pre with
  | nil => simp [publish, hf]
  | cons g gs ih =>
    obtain ⟨c, hc⟩ := hpre g (List.mem_cons_self g gs)
    simp only [List.cons_append, publish, hc, List.append_eq]
    rw [ih (fun x hx => hpre x (List.mem_cons_of_mem g hx))]
    simp

/-- C10: only `CalledProcessError` (non-zero exit of a completed upload) is
swallowed by `publish`; an invocation that raises any other exception
propagates out of the loop, so the current file is not deleted and the
remaining files are neither uploaded nor deleted. -/
theorem publish_raise_propagates_spec (pre post : List String) (f : String)
    (env : String → UploadOutcome) (msg : String)
    (hnd : (pre ++ f :: post).Nodup)
    (hpre : ∀ g ∈ pre, ∃ c, env g = .exited c)
    (hf : env f = .raised msg) :
    publish (pre ++ f :: post) env
      = (pre.flatMap (fun g => [PubEvent.uploadAttempt g, PubEvent.deleteFile g])
          ++ [PubEvent.uploadAttempt f], some msg)
    ∧ PubEvent.deleteFile f ∉ (publish (pre ++ f :: post) env).1
    ∧ ∀ g ∈ post, PubEvent.uploadAttempt g ∉ (publish (pre ++ f :: post) env).1
        ∧ PubEvent.deleteFile g ∉ (publish (pre ++ f :: post) env).1 := by
  have heq := publish_raised_eq pre post f env msg hpre hf
  have hfpre : f ∉ pre := by
    intro hmem
    obtain ⟨c, hc⟩ := hpre f hmem
    rw [hf] at hc
    exact UploadOutcome.noConfusion hc
  refine ⟨heq, ?_, ?_⟩
  · rw [heq]
    simp only [List.mem_append, List.mem_flatMap, List.mem_cons]
    rintro (⟨g, hg, hmem⟩ | hmem) <;> simp_all
  · intro g hgpost
    have hgpre : g ∉ pre := by
      intro hmem
      exact (List.disjoint_of_nodup_append hnd hmem) (List.mem_cons_of_mem f hgpost)
    have hgf : g ≠ f := by
      rintro rfl
      have := List.nodup_append.mp hnd
      exact (List.nodup_cons.mp this.2.1).1 hgpost
    constructor <;>
    · rw [heq]
      simp only [List.mem_append, List.mem_flatMap, List.mem_cons]
      rintro (⟨x, hx, hmem⟩ | hmem) <;> simp_all

/-- Witness for C10: the upload tool's executable is missing for the second of
three artifact files. -/
theorem publish_raise_propagates_spec_witness :
    publish (["a.conda"] ++ "b.conda" :: ["c.conda"])
        (fun g => if g = "b.conda" then .raised "No such file or directory" else .exited 0)
      = (["a.conda"].flatMap (fun g => [PubEvent.uploadAttempt g, PubEvent.deleteFile g])
          ++ [PubEvent.uploadAttempt "b.conda"], some "No such file or directory")
    ∧ PubEvent.deleteFile "b.conda" ∉
        (publish (["a.conda"] ++ "b.conda" :: ["c.conda"])
          (fun g => if g = "b.conda" then .raised "No such file or directory"
            else .exited 0)).1
    ∧ ∀ g ∈ ["c.conda"],
        PubEvent.uploadAttempt g ∉
          (publish (["a.conda"] ++ "b.conda" :: ["c.conda"])
            (fun g => if g = "b.conda" then .raised "No such file or directory"
              else .exited 0)).1
        ∧ PubEvent.deleteFile g ∉
            (publish (["a.conda"] ++ "b.conda" :: ["c.conda"])
              (fun g => if g = "b.conda" then .raised "No such file or directory"
                else .exited 0)).1 :=
  publish_raise_propagates_spec ["a.conda"] ["c.conda"] "b.conda"
    (fun g => if g = "b.conda" then .raised "No such file or directory" else .exited 0)
    "No such file or directory"
    (by decide)
    (fun g hg => by
      rcases List.mem_singleton.mp hg with rfl
      exact ⟨0, by decide⟩)
    (by decide)

/-- C5: the generated recipe takes `package.name`/`package.version` from the
configuration, but the package-build script line always uses the fixed literal
`zlib`, so the two diverge whenever the configured name is not `zlib`; and
`requirements.run` is `format_dependency` applied to every dependency entry in
mapping iteration order, without re-sorting. -/
theorem generate_recipe_spec (cfg : ProjectConfig) (readme : String) (r : Recipe)
    (hgen : generate_recipe cfg readme = some r) :
    r.packageName = cfg.packageName
    ∧ r.packageVersion = cfg.packageVersion
    ∧ r.buildScript = ["mkdir -p ${PREFIX}/lib/mojo",
        "pixi run mojo package zlib -o ${PREFIX}/lib/mojo/zlib.mojopkg"]
    ∧ (cfg.packageName ≠ "zlib" → r.packageName ≠ "zlib")
    ∧ cfg.dependencies.mapM (fun d => format_dependency d.1 d.2) = some r.requirementsRun := by
  unfold generate_recipe at hgen
  cases hm : cfg.dependencies.mapM (fun d => format_dependency d.1 d.2) with
  | none => rw [hm] at hgen; simp at hgen
  | some reqs =>
    rw [hm] at hgen
    simp only [Option.map_some', Option.some.injEq] at hgen
    subst hgen
    refine ⟨rfl, rfl, rfl, fun h => h, rfl⟩

/-- Witness for C5 at `sampleConfig`. -/
theorem generate_recipe_spec_witness :
    sampleRecipe.packageName = sampleConfig.packageName
    ∧ sampleRecipe.packageVersion = sampleConfig.packageVersion
    ∧ sampleRecipe.buildScript = ["mkdir -p ${PREFIX}/lib/mojo",
        "pixi run mojo package zlib -o ${PREFIX}/lib/mojo/zlib.mojopkg"]
    ∧ (sampleConfig.packageName ≠ "zlib" → sampleRecipe.packageName ≠ "zlib")
    ∧ sampleConfig.dependencies.mapM (fun d => format_dependency d.1 d.2)
        = some sampleRecipe.requirementsRun :=
  generate_recipe_spec sampleConfig "readme text" sampleRecipe (by decide)

/-- C4: with no pre-existing recipe file, exactly one recipe is generated and
deleted after a successful build; with a pre-existing recipe file, generation
is skipped (the build consumes the untouched pre-existing recipe) but the file
is still deleted after success; a non-zero build exit is fatal — a single
build invocation, no retry, and the recipe file is not deleted. -/
theorem build_conda_package_spec (cfg : ProjectConfig) (readme : String)
    (r r0 : Recipe) (e : Int)
    (hgen : generate_recipe cfg readme = some r) (hne : e ≠ 0) :
    build_conda_package cfg readme none 0
      = { recipeFile := none, events := [.generated r, .buildRun r, .removedRecipe]
          error := none }
    ∧ build_conda_package cfg readme (some r0) 0
      = { recipeFile := none, events := [.buildRun r0, .removedRecipe], error := none }
    ∧ build_conda_package cfg readme none e
      = { recipeFile := some r, events := [.generated r, .buildRun r]
          error := some (.buildFailed e) }
    ∧ build_conda_package cfg readme (some r0) e
      = { recipeFile := some r0, events := [.buildRun r0]
          error := some (.buildFailed e) } := by
  refine ⟨?_, ?_, ?_, ?_⟩ <;>
    simp [build_conda_package, runBuildStep, hgen, hne]

/-- Witness for C4 at `sampleConfig` with build exit code 1. -/
theorem build_conda_package_spec_witness :
    build_conda_package sampleConfig "readme text" none 0
      = { recipeFile := none
          events := [.generated sampleRecipe, .buildRun sampleRecipe, .removedRecipe]
          error := none }
    ∧ build_conda_package sampleConfig "readme text" (some sampleRecipe) 0
      = { recipeFile := none, events := [.buildRun sampleRecipe, .removedRecipe]
          error := none }
    ∧ build_conda_package sampleConfig "readme text" none 1
      = { recipeFile := some sampleRecipe
          events := [.generated sampleRecipe, .buildRun sampleRecipe]
          error := some (.buildFailed 1) }
    ∧ build_conda_package sampleConfig "readme text" (some sampleRecipe) 1
      = { recipeFile := some sampleRecipe, events := [.buildRun sampleRecipe]
          error := some (.buildFailed 1) } :=
  build_conda_package_spec sampleConfig "readme text" sampleRecipe sampleRecipe 1
    (by decide) (by decide)

/-- C9: from any starting filesystem state (staging directory absent or with
arbitrary pre-existing contents), a successful `prepare_temp_directory` leaves
the staging directory existing with exactly one newly produced artifact and
nothing else; the operation is idempotent (a second successful call leaves the
same final state), and the result is independent of the starting state. -/
theorem prepare_temp_directory_spec (fs fs' : FS) (pkg : String) :
    prepare_temp_directory fs pkg 0
      = ({ tempDir := some [pkg ++ ".mojopkg"] }, none)
    ∧ ((prepare_temp_directory fs pkg 0).1.tempDir).isSome = true
    ∧ prepare_temp_directory (prepare_temp_directory fs pkg 0).1 pkg 0
        = prepare_temp_directory fs pkg 0
    ∧ prepare_temp_directory fs pkg 0 = prepare_temp_directory fs' pkg 0 :=
  ⟨rfl, rfl, rfl, rfl⟩

end MojoZlib
